import Mathlib

/-!
# Daily-report aggregation engine: shallow embedding

This file embeds the daily-report generation/lifecycle core of the
dealership backend and proves/refutes the specification claims about it.

Source files embedded:
* `backend/app/api/v1/daily_reports.py` — the generation path
  (`generate_daily_report_from_sessions`) and the by-date endpoint
  (`get_daily_report_by_date`), plus profitable listing and update endpoints.
* `backend/app/services/daily_report_service/service.py` — the service layer
  (`create_daily_report`, `get_report_by_date`, `get_report_by_id`,
  `get_profitable_reports`, `update_report`, `delete_report`).
* `backend/app/domains/daily_report/domain.py` — the `DailyReportDomain`
  entity, pydantic validators, business rules, derived values.
* `backend/app/domains/session/domain.py` — the session entity read by the
  aggregation.

Modelling conventions:
* Python `int` money fields are `ℤ`.
* Timestamps are integers counting MICROSECONDS since the Unix epoch — the
  exact resolution of Python `datetime` values.  `timedelta.total_seconds()`
  and the hour arithmetic of the source are real-valued; they are modelled by
  the exact rational value (`ℚ`), which the integer formulas below are proved
  to realise.
* Calendar dates are integer day numbers since the epoch (`ℤ`).
* Fallible Python code returns `Except PyError`; mutation of the MongoDB
  collection is explicit state passing on `ReportStore`.
-/

namespace Dealership

/-- Microseconds per hour: the divisor realising `total_seconds() / 3600`
at microsecond resolution. -/
def usPerHour : ℤ := 3600000000

/-- Microseconds per day. -/
def usPerDay : ℤ := 86400000000

/-- Python exception outcomes that the embedded code can raise. -/
inductive PyError where
  | typeError (msg : String)
  | valueError (msg : String)
deriving DecidableEq, Repr

/-- Python's `int()` cast applied to a (finite) real value: truncation
toward zero.  `int(199.9) = 199`, `int(-1.5) = -1`. -/
def pyIntTrunc (q : ℚ) : ℤ :=
  if 0 ≤ q then ⌊q⌋ else ⌈q⌉

/-- `daily_reports.py` lines 79-88: the labor cost of one session,
`int(duration_hours * hourly_pay)` where
`duration_hours = delta.total_seconds() / 3600`.  With the time difference
given as `deltaUs` microseconds, the exact rational value of
`duration_hours * hourly_pay` is `(deltaUs * pay) / 3600000000`, and `int()`
of it is T-division (truncation toward zero); the equivalence with the
real-valued form `pyIntTrunc` is proved in `dealerCostInt_eq_pyIntTrunc`. -/
def dealerCostInt (deltaUs pay : ℤ) : ℤ :=
  Int.tdiv (deltaUs * pay) usPerHour

/-- The calendar date (day number) of instant `tUs` in a timezone
`offsetSeconds` ahead of UTC: Python's `datetime.now(tz).date()`. -/
def localDateOfInstant (offsetSeconds tUs : ℤ) : ℤ :=
  (tUs + offsetSeconds * 1000000) / usPerDay

/-- Python's `date.today()`: the current date in the HOST machine's local
timezone, whose UTC offset is `hostOffset` seconds
(`domain.py` line 79 uses this for the future-date rule). -/
def pyDateToday (hostOffset tUs : ℤ) : ℤ :=
  localDateOfInstant hostOffset tUs

/-- UTC offset, in seconds, of the IANA tz database entry used as
`BOGOTA_TZ = ZoneInfo("America/Bogota")` in `daily_reports.py` line 32.
Modelled from the tz database: local mean time −4:56:16 until
1914-11-23 (UTC instant −1739041424), a single DST experiment at −4:00 from
1992-05-03 00:00 −05 (UTC instant 704869200) until 1993-02-06 24:00 −04
(UTC instant 729057600), and −5:00 otherwise. -/
def americaBogotaOffsetAt (tUs : ℤ) : ℤ :=
  if tUs < -1739041424000000 then -17776
  else if 704869200000000 ≤ tUs ∧ tUs < 729057600000000 then -14400
  else -18000

/-- `daily_reports.py` lines 166-167: `datetime.now(BOGOTA_TZ).date()`. -/
def today_bogota (tUs : ℤ) : ℤ :=
  localDateOfInstant (americaBogotaOffsetAt tUs) tUs

/-- `daily_reports.py` line 54: `datetime.combine(report_date,
datetime.min.time())`, i.e. naive midnight of the calendar date — no
timezone offset is applied, so against UTC-stored timestamps it denotes
UTC midnight. -/
def start_of_day (d : ℤ) : ℤ := d * usPerDay

/-- `daily_reports.py` line 55: `datetime.combine(report_date,
datetime.max.time())`, i.e. naive `23:59:59.999999` of the calendar date. -/
def end_of_day (d : ℤ) : ℤ := d * usPerDay + (usPerDay - 1)

/-- The `$gte start_of_day, $lte end_of_day` range condition used by the
source-record fetches of the generation path (`daily_reports.py` lines
54-57, 91-95, 107-111 together with the stores' range queries). -/
def fetchRangeContains (d tUs : ℤ) : Bool :=
  decide (start_of_day d ≤ tUs) && decide (tUs ≤ end_of_day d)

/-! ## Source-record entities (read-only collaborators of the aggregator) -/

/-- `SessionDomain` (`session/domain.py`): `start_time` is a required field
there, but the aggregator (`daily_reports.py` line 79) guards on its
truthiness, so it is kept optional here; Python datetimes are always truthy
when present.  `comment` is irrelevant to aggregation and carried for
faithfulness. -/
structure SessionDomain where
  id : String
  dealer_id : String
  start_time : Option ℤ
  end_time : Option ℤ
  jackpot : ℤ := 0
  reik : ℤ := 0
  tips : ℤ := 0
  hourly_pay : ℤ := 0
  comment : Option String := none
deriving DecidableEq, Repr

/-- `JackpotPriceDomain` (`jackpot_price/domain.py`): one jackpot payout. -/
structure JackpotPriceDomain where
  id : String
  user_id : String
  session_id : String
  value : ℤ
  created_at : Option ℤ := none
deriving DecidableEq, Repr

/-- `BonoDomain` (`bono/domain.py`): one discretionary bonus payment. -/
structure BonoDomain where
  id : String
  user_id : String
  session_id : String
  value : ℤ
  created_at : Option ℤ := none
deriving DecidableEq, Repr

/-! ## DailyReport domain entity (`daily_report/domain.py`) -/

/-- `JackpotWinEntry` (`domain.py` lines 11-14). -/
structure JackpotWinEntry where
  jackpot_win_id : String
  sum : ℤ
deriving DecidableEq, Repr

/-- `BonoEntry` (`domain.py` lines 17-20). -/
structure BonoEntry where
  bono_id : String
  sum : ℤ
deriving DecidableEq, Repr

/-- `DailyReportDomain` (`domain.py` lines 23-39). -/
structure DailyReportDomain where
  id : Option String := none
  date : ℤ
  reik : ℤ := 0
  jackpot : ℤ := 0
  ganancias : ℤ := 0
  gastos : ℤ := 0
  sessions : List String := []
  jackpot_wins : List JackpotWinEntry := []
  bonos : List BonoEntry := []
  comment : Option String := none
  created_at : Option ℤ := none
  updated_at : Option ℤ := none
deriving DecidableEq, Repr

namespace DailyReportDomain

/-- `get_net_profit` (`domain.py` lines 48-50). -/
def get_net_profit (r : DailyReportDomain) : ℤ :=
  r.ganancias - r.gastos

/-- `get_total_income` (`domain.py` lines 52-54). -/
def get_total_income (r : DailyReportDomain) : ℤ :=
  r.reik + r.jackpot + r.ganancias

/-- `is_profitable` (`domain.py` lines 56-58): `get_net_profit() > 0`. -/
def is_profitable (r : DailyReportDomain) : Bool :=
  decide (r.get_net_profit > 0)

/-- The pydantic `field_validator` on `reik`, `jackpot`, `ganancias`,
`gastos` (`domain.py` lines 41-46): raises on any negative value at model
construction time. -/
def pydanticMoneyOk (reik jackpot ganancias gastos : ℤ) : Bool :=
  decide (0 ≤ reik) && decide (0 ≤ jackpot) && decide (0 ≤ ganancias) && decide (0 ≤ gastos)

/-- `validate_business_rules` (`domain.py` lines 67-92).  `hostToday` is the
value of Python's `date.today()` at the call.  The `if not self.date` branch
cannot fire (a `date` object is always truthy) and is omitted. -/
def validate_business_rules (hostToday : ℤ) (r : DailyReportDomain) : List String :=
  (if r.date > hostToday then ["La fecha no puede ser futura"] else []) ++
  (if r.reik < 0 then ["El reik no puede ser negativo"] else []) ++
  (if r.jackpot < 0 then ["El jackpot no puede ser negativo"] else []) ++
  (if r.ganancias < 0 then ["Las ganancias no pueden ser negativas"] else []) ++
  (if r.gastos < 0 then ["Los gastos no pueden ser negativos"] else [])

end DailyReportDomain

/-- `DailyReportDomainService.create_daily_report` (`domain.py` lines
101-128): construct the pydantic model (whose field validators reject
negative money), then check business rules; any failure raises
`ValueError`.  `hostToday` models `date.today()`, `nowUtc` the instant used
for `created_at`/`updated_at`. -/
def DailyReportDomainService.create_daily_report (hostToday nowUtc : ℤ)
    (report_date : ℤ) (reik jackpot ganancias gastos : ℤ)
    (sessions : Option (List String)) (jackpot_wins : Option (List JackpotWinEntry))
    (bonos : Option (List BonoEntry)) (comment : Option String) :
    Except PyError DailyReportDomain :=
  if !(DailyReportDomain.pydanticMoneyOk reik jackpot ganancias gastos) then
    .error (.valueError "Los valores monetarios no pueden ser negativos")
  else
    let daily_report : DailyReportDomain :=
      { id := none, date := report_date, reik := reik, jackpot := jackpot,
        ganancias := ganancias, gastos := gastos,
        sessions := sessions.getD [], jackpot_wins := jackpot_wins.getD [],
        bonos := bonos.getD [], comment := comment,
        created_at := some nowUtc, updated_at := some nowUtc }
    let errors := daily_report.validate_business_rules hostToday
    if errors.isEmpty then .ok daily_report
    else .error (.valueError ("Errores de validación: " ++ String.intercalate "; " errors))

/-! ## Aggregation fold (`daily_reports.py` lines 59-127) -/

/-- Accumulator of the per-session loop (`daily_reports.py` lines 59-88). -/
structure SessionAcc where
  total_reik : ℤ
  total_jackpot : ℤ
  total_dealer_cost : ℤ
  total_tips : ℤ
  session_ids : List String
deriving DecidableEq, Repr

/-- One iteration of the session loop (`daily_reports.py` lines 69-88).
`if session.tips:` and `if session.hourly_pay:` are Python truthiness tests
on integers, i.e. nonzero tests; a present datetime is always truthy. -/
def sessionStep (now : ℤ) (acc : SessionAcc) (s : SessionDomain) : SessionAcc :=
  let acc1 : SessionAcc :=
    { acc with total_reik := acc.total_reik + s.reik,
               total_jackpot := acc.total_jackpot + s.jackpot,
               session_ids := acc.session_ids ++ [s.id] }
  let acc2 : SessionAcc :=
    if s.tips ≠ 0 then { acc1 with total_tips := acc1.total_tips + s.tips } else acc1
  match s.start_time with
  | some st =>
      if s.hourly_pay ≠ 0 then
        let dealer_cost : ℤ :=
          match s.end_time with
          | some et => dealerCostInt (et - st) s.hourly_pay
          | none => dealerCostInt (now - st) s.hourly_pay
        { acc2 with total_dealer_cost := acc2.total_dealer_cost + dealer_cost }
      else acc2
  | none => acc2

/-- Accumulator of the jackpot loop (`daily_reports.py` lines 97-104). -/
structure JackpotAcc where
  jackpot_wins_list : List JackpotWinEntry
  total_jackpot_wins : ℤ
deriving DecidableEq, Repr

/-- One iteration of the jackpot loop (`daily_reports.py` lines 99-104). -/
def jackpotStep (acc : JackpotAcc) (j : JackpotPriceDomain) : JackpotAcc :=
  { jackpot_wins_list := acc.jackpot_wins_list ++ [{ jackpot_win_id := j.id, sum := j.value }],
    total_jackpot_wins := acc.total_jackpot_wins + j.value }

/-- Accumulator of the bono loop (`daily_reports.py` lines 113-120). -/
structure BonoAcc where
  bonos_list : List BonoEntry
  total_bonos : ℤ
deriving DecidableEq, Repr

/-- One iteration of the bono loop (`daily_reports.py` lines 115-120). -/
def bonoStep (acc : BonoAcc) (b : BonoDomain) : BonoAcc :=
  { bonos_list := acc.bonos_list ++ [{ bono_id := b.id, sum := b.value }],
    total_bonos := acc.total_bonos + b.value }

/-- The values computed by `generate_daily_report_from_sessions` before the
persistence call (`daily_reports.py` lines 59-139); a report draft. -/
structure DailyReportDraft where
  report_date : ℤ
  reik : ℤ
  jackpot : ℤ
  ganancias : ℤ
  gastos : ℤ
  sessions : List String
  jackpot_wins : List JackpotWinEntry
  bonos : List BonoEntry
  comment : String
deriving DecidableEq, Repr

/-- The pure aggregation inside `generate_daily_report_from_sessions`
(`daily_reports.py` lines 59-139): the three loops, then
`total_gastos = total_bonos + total_jackpot_wins + total_dealer_cost + total_tips`
and `total_ganancias = total_reik - total_gastos`, then the comment string.
The three collections are those fetched for the day range; `now` is the
`datetime.now(timezone.utc)` instant used for still-open sessions. -/
def aggregateDailyReport (report_date : ℤ) (sessions : List SessionDomain)
    (jackpots : List JackpotPriceDomain) (bonos : List BonoDomain) (now : ℤ) :
    DailyReportDraft :=
  let sAcc := sessions.foldl (sessionStep now) ⟨0, 0, 0, 0, []⟩
  let jAcc := jackpots.foldl jackpotStep ⟨[], 0⟩
  let bAcc := bonos.foldl bonoStep ⟨[], 0⟩
  let total_gastos := bAcc.total_bonos + jAcc.total_jackpot_wins + sAcc.total_dealer_cost + sAcc.total_tips
  let total_ganancias := sAcc.total_reik - total_gastos
  { report_date := report_date,
    reik := sAcc.total_reik,
    jackpot := sAcc.total_jackpot,
    ganancias := total_ganancias,
    gastos := total_gastos,
    sessions := sAcc.session_ids,
    jackpot_wins := jAcc.jackpot_wins_list,
    bonos := bAcc.bonos_list,
    comment := "Reporte generado automáticamente con " ++ toString sessions.length ++
      " sesiones, " ++ toString jAcc.jackpot_wins_list.length ++ " jackpots, " ++
      toString bAcc.bonos_list.length ++
      " bonos. Gastos incluyen: bonos, jackpots, costos de dealers y tips." }

/-! ## Service layer (`daily_report_service/service.py`) -/

/-- The MongoDB `daily_reports` collection, plus the id generator standing
in for ObjectId assignment on insert. -/
structure ReportStore where
  reports : List DailyReportDomain
  next_id : ℕ
deriving DecidableEq, Repr

/-- `find_one` on a key predicate: first document in natural order. -/
def DailyReportService.get_report_by_date (st : ReportStore) (report_date : ℤ) :
    Option DailyReportDomain :=
  st.reports.find? (fun r => r.date == report_date)

/-- `get_report_by_id` (`service.py` lines 60-71): `find_one({"_id": report_id})`. -/
def DailyReportService.get_report_by_id (st : ReportStore) (report_id : String) :
    Option DailyReportDomain :=
  st.reports.find? (fun r => r.id == some report_id)

/-- `delete_one` by id: removes the first matching document. -/
def deleteFirstById : List DailyReportDomain → Option String → List DailyReportDomain
  | [], _ => []
  | r :: rest, rid => if r.id == rid then rest else r :: deleteFirstById rest rid

/-- `delete_report` (`service.py` lines 210-215): hard delete, returns
`deleted_count > 0` and the new collection state. -/
def DailyReportService.delete_report (st : ReportStore) (report_id : Option String) :
    Bool × ReportStore :=
  (st.reports.any (fun r => r.id == report_id),
   { st with reports := deleteFirstById st.reports report_id })

/-- `create_daily_report` (`service.py` lines 24-58): reject when a report
for the date already exists, then build via the domain service — note the
service does NOT forward any `jackpot_wins`/`bonos` (its signature has no
such parameters), so they default to `[]` — then insert.  Second component
of the result is the collection state after the call (unchanged when an
exception is raised). -/
def DailyReportService.create_daily_report (st : ReportStore) (hostToday nowUtc : ℤ)
    (report_date : ℤ) (reik jackpot ganancias gastos : ℤ)
    (sessions : List String) (comment : Option String) :
    Except PyError DailyReportDomain × ReportStore :=
  match DailyReportService.get_report_by_date st report_date with
  | some _ =>
      (.error (.valueError ("Ya existe un reporte para la fecha " ++ toString report_date)), st)
  | none =>
      match DailyReportDomainService.create_daily_report hostToday nowUtc report_date
          reik jackpot ganancias gastos (some sessions) none none comment with
      | .error e => (.error e, st)
      | .ok daily_report =>
          let saved := { daily_report with id := some (toString st.next_id) }
          (.ok saved, { reports := st.reports ++ [saved], next_id := st.next_id + 1 })

/-- Stable insertion into a date-descending list; `insertion` into the
result of `sort("date", -1)`. -/
def insertByDateDesc (r : DailyReportDomain) : List DailyReportDomain → List DailyReportDomain
  | [] => [r]
  | x :: xs => if r.date ≤ x.date then x :: insertByDateDesc r xs else r :: x :: xs

/-- The cursor order of `find().sort("date", -1)`: the collection sorted by
date descending (MongoDB applies `sort` before `skip`/`limit` regardless of
the chaining order of the cursor methods). -/
def sortByDateDesc (l : List DailyReportDomain) : List DailyReportDomain :=
  l.foldr insertByDateDesc []

/-- `get_profitable_reports` (`service.py` lines 117-131):
`find().skip(skip).limit(limit).sort("date", -1)` — i.e. sort, then skip,
then limit — and only afterwards the in-Python `is_profitable()` filter. -/
def DailyReportService.get_profitable_reports (st : ReportStore) (skip limit : ℕ) :
    List DailyReportDomain :=
  (((sortByDateDesc st.reports).drop skip).take limit).filter DailyReportDomain.is_profitable

/-- The keyword updates the endpoint passes to `update_report`
(`daily_reports.py` lines 364-376): only these six keys are ever placed in
`update_dict`, each only when the request supplied it. -/
structure UpdateDict where
  reik : Option ℤ := none
  jackpot : Option ℤ := none
  ganancias : Option ℤ := none
  gastos : Option ℤ := none
  sessions : Option (List String) := none
  comment : Option String := none
deriving DecidableEq, Repr

/-- The `setattr` merge loop of `update_report` (`service.py` lines
144-148) followed by `updated_at = datetime.utcnow()`. -/
def mergeReport (existing : DailyReportDomain) (upd : UpdateDict) (nowUtc : ℤ) :
    DailyReportDomain :=
  { existing with
    reik := upd.reik.getD existing.reik,
    jackpot := upd.jackpot.getD existing.jackpot,
    ganancias := upd.ganancias.getD existing.ganancias,
    gastos := upd.gastos.getD existing.gastos,
    sessions := upd.sessions.getD existing.sessions,
    comment := match upd.comment with | some c => some c | none => existing.comment,
    updated_at := some nowUtc }

/-- `update_one({"_id": rid}, {"$set": update_data})`: replace the first
matching document with the merged one (`update_data` is the merged report
minus `id`/`created_at`, which the merge never alters anyway). -/
def updateFirstById (l : List DailyReportDomain) (rid : Option String)
    (merged : DailyReportDomain) : List DailyReportDomain :=
  match l with
  | [] => []
  | r :: rest =>
      if r.id == rid then merged :: rest else r :: updateFirstById rest rid merged

/-- `update_report` (`service.py` lines 133-164): fetch by id (`None` result
when absent), merge the updates, re-validate business rules (raising
`ValueError` on failure), persist with `$set`.  Second component is the
collection state after the call. -/
def DailyReportService.update_report (st : ReportStore) (hostToday nowUtc : ℤ)
    (report_id : String) (upd : UpdateDict) :
    Except PyError (Option DailyReportDomain) × ReportStore :=
  match DailyReportService.get_report_by_id st report_id with
  | none => (.ok none, st)
  | some existing =>
      let merged := mergeReport existing upd nowUtc
      let errors := merged.validate_business_rules hostToday
      if errors.isEmpty then
        (.ok (some merged),
         { st with reports := updateFirstById st.reports (some report_id) merged })
      else
        (.error (.valueError ("Errores de validación: " ++ String.intercalate "; " errors)), st)

/-! ## API layer (`api/v1/daily_reports.py`) -/

/-- The keyword parameter names accepted by
`DailyReportService.create_daily_report` (`service.py` lines 24-27). -/
def serviceCreateParams : List String :=
  ["report_date", "reik", "jackpot", "ganancias", "gastos", "sessions", "comment"]

/-- The keyword argument names passed at the persistence call site inside
`generate_daily_report_from_sessions` (`daily_reports.py` lines 130-140). -/
def generateCallArgs : List String :=
  ["report_date", "reik", "jackpot", "ganancias", "gastos", "sessions",
   "jackpot_wins", "bonos", "comment"]

/-- Python call semantics: a keyword argument whose name is not among the
callee's parameters raises `TypeError` before the callee body runs. -/
def kwargsAccepted : Bool :=
  generateCallArgs.all (fun k => serviceCreateParams.contains k)

/-- `generate_daily_report_from_sessions` (`daily_reports.py` lines
38-142): aggregate the day's records, then call the service-layer
`create_daily_report` with the keyword arguments of lines 130-140.  The
collections are the ones the fetches of lines 57, 91 and 107 return for the
day range.  The draft values that reach the callee when the call is
accepted are exactly the aggregated ones; `jackpot_wins`/`bonos` are not
among the callee's parameters. -/
def generate_daily_report_from_sessions (st : ReportStore) (hostToday nowUtc : ℤ)
    (report_date : ℤ) (sessions : List SessionDomain)
    (jackpots : List JackpotPriceDomain) (bonos : List BonoDomain) :
    Except PyError DailyReportDomain × ReportStore :=
  let draft := aggregateDailyReport report_date sessions jackpots bonos nowUtc
  if kwargsAccepted then
    DailyReportService.create_daily_report st hostToday nowUtc report_date
      draft.reik draft.jackpot draft.ganancias draft.gastos draft.sessions (some draft.comment)
  else
    (.error (.typeError "create_daily_report got an unexpected keyword argument jackpot_wins"), st)

/-- The ambient state an endpoint call runs in: the report collection, the
source-record stores as fetch results per requested date, the current UTC
instant, and the host machine's UTC offset (seconds), which determines
`date.today()`. -/
structure World where
  store : ReportStore
  sessionsByDate : ℤ → List SessionDomain
  jackpotsByDate : ℤ → List JackpotPriceDomain
  bonosByDate : ℤ → List BonoDomain
  nowUtc : ℤ
  hostOffset : ℤ

/-- `get_daily_report_by_date` (`daily_reports.py` lines 145-214): compute
today in the `BOGOTA_TZ` zone; if the requested date is today, delete any
existing report and regenerate; otherwise return the existing report or
generate one if absent. -/
def get_daily_report_by_date (w : World) (report_date : ℤ) :
    Except PyError DailyReportDomain × ReportStore :=
  let todayBogota := today_bogota w.nowUtc
  let hostToday := pyDateToday w.hostOffset w.nowUtc
  let is_today := report_date == todayBogota
  if is_today then
    let st1 :=
      match DailyReportService.get_report_by_date w.store report_date with
      | some existing_report => (DailyReportService.delete_report w.store existing_report.id).2
      | none => w.store
    generate_daily_report_from_sessions st1 hostToday w.nowUtc report_date
      (w.sessionsByDate report_date) (w.jackpotsByDate report_date) (w.bonosByDate report_date)
  else
    match DailyReportService.get_report_by_date w.store report_date with
    | some report => (.ok report, w.store)
    | none =>
        generate_daily_report_from_sessions w.store hostToday w.nowUtc report_date
          (w.sessionsByDate report_date) (w.jackpotsByDate report_date) (w.bonosByDate report_date)

/-- `DailyReportUpdateSchema` (`daily_report_schemas.py` lines 48-63): the
request body of the update endpoint; note it DOES declare `jackpot_wins`
and `bonos` fields. -/
structure DailyReportUpdateSchema where
  reik : Option ℤ := none
  jackpot : Option ℤ := none
  ganancias : Option ℤ := none
  gastos : Option ℤ := none
  sessions : Option (List String) := none
  jackpot_wins : Option (List JackpotWinEntry) := none
  bonos : Option (List BonoEntry) := none
  comment : Option String := none
deriving DecidableEq, Repr

/-- `update_daily_report` (`daily_reports.py` lines 346-403): build
`update_dict` from exactly six request fields — `jackpot_wins` and `bonos`
are never read — and call the service. -/
def update_daily_report (st : ReportStore) (hostToday nowUtc : ℤ)
    (report_id : String) (report_data : DailyReportUpdateSchema) :
    Except PyError (Option DailyReportDomain) × ReportStore :=
  let update_dict : UpdateDict :=
    { reik := report_data.reik, jackpot := report_data.jackpot,
      ganancias := report_data.ganancias, gastos := report_data.gastos,
      sessions := report_data.sessions, comment := report_data.comment }
  DailyReportService.update_report st hostToday nowUtc report_id update_dict

/-! ## Specification-style per-collection sums

These definitions follow the wording of the specification (§3/§4.1 and
claim C4): expenses are labor + tips + jackpot-wins + bonos, where the
per-session labor cost is the truncated `duration_hours × hourly_pay`.
They are proved to coincide with the source's accumulator loops. -/

/-- Sum of `reik` over sessions. -/
def totalReik (l : List SessionDomain) : ℤ := (l.map SessionDomain.reik).sum

/-- Sum of the cumulative session `jackpot` field. -/
def totalJackpotField (l : List SessionDomain) : ℤ := (l.map SessionDomain.jackpot).sum

/-- Sum of session tips. -/
def totalTips (l : List SessionDomain) : ℤ := (l.map SessionDomain.tips).sum

/-- Per-session labor cost: zero when the session has no start time or a
zero hourly rate, else the truncated product over the duration up to
`end_time` (or `now` for a still-open session). -/
def sessionLaborCost (now : ℤ) (s : SessionDomain) : ℤ :=
  match s.start_time with
  | none => 0
  | some st =>
      if s.hourly_pay = 0 then 0
      else dealerCostInt ((s.end_time.getD now) - st) s.hourly_pay

/-- Sum of per-session labor costs. -/
def totalLaborCost (now : ℤ) (l : List SessionDomain) : ℤ :=
  (l.map (sessionLaborCost now)).sum

/-- Sum of jackpot-win values. -/
def totalJackpotWinsValue (l : List JackpotPriceDomain) : ℤ :=
  (l.map JackpotPriceDomain.value).sum

/-- Sum of bono values. -/
def totalBonosValue (l : List BonoDomain) : ℤ :=
  (l.map BonoDomain.value).sum

/-! ## The loop accumulators realise the specification sums -/

theorem sessionStep_components (now : ℤ) (acc : SessionAcc) (s : SessionDomain) :
    (sessionStep now acc s).total_reik = acc.total_reik + s.reik ∧
    (sessionStep now acc s).total_jackpot = acc.total_jackpot + s.jackpot ∧
    (sessionStep now acc s).total_dealer_cost = acc.total_dealer_cost + sessionLaborCost now s ∧
    (sessionStep now acc s).total_tips = acc.total_tips + s.tips ∧
    (sessionStep now acc s).session_ids = acc.session_ids ++ [s.id] := by
  cases hst : s.start_time with
  | none =>
      by_cases htip : s.tips = 0 <;>
        simp [sessionStep, sessionLaborCost, hst, htip]
  | some st =>
      by_cases htip : s.tips = 0 <;> by_cases hpay : s.hourly_pay = 0 <;>
        cases het : s.end_time <;>
          simp [sessionStep, sessionLaborCost, hst, htip, hpay, het]

theorem sessionFold_spec (now : ℤ) (l : List SessionDomain) (acc : SessionAcc) :
    (l.foldl (sessionStep now) acc).total_reik = acc.total_reik + totalReik l ∧
    (l.foldl (sessionStep now) acc).total_jackpot = acc.total_jackpot + totalJackpotField l ∧
    (l.foldl (sessionStep now) acc).total_dealer_cost
      = acc.total_dealer_cost + totalLaborCost now l ∧
    (l.foldl (sessionStep now) acc).total_tips = acc.total_tips + totalTips l ∧
    (l.foldl (sessionStep now) acc).session_ids
      = acc.session_ids ++ l.map SessionDomain.id := by
  induction l generalizing acc with
  | nil => simp [totalReik, totalJackpotField, totalLaborCost, totalTips]
  | cons s rest ih =>
      obtain ⟨hs1, hs2, hs3, hs4, hs5⟩ := sessionStep_components now acc s
      obtain ⟨ih1, ih2, ih3, ih4, ih5⟩ := ih (sessionStep now acc s)
      refine ⟨?_, ?_, ?_, ?_, ?_⟩
      · rw [List.foldl_cons, ih1, hs1]
        simp [totalReik]; ring
      · rw [List.foldl_cons, ih2, hs2]
        simp [totalJackpotField]; ring
      · rw [List.foldl_cons, ih3, hs3]
        simp [totalLaborCost]; ring
      · rw [List.foldl_cons, ih4, hs4]
        simp [totalTips]; ring
      · rw [List.foldl_cons, ih5, hs5]
        simp

theorem jackpotFold_spec (l : List JackpotPriceDomain) (acc : JackpotAcc) :
    (l.foldl jackpotStep acc).jackpot_wins_list
      = acc.jackpot_wins_list
        ++ l.map (fun j => { jackpot_win_id := j.id, sum := j.value : JackpotWinEntry }) ∧
    (l.foldl jackpotStep acc).total_jackpot_wins
      = acc.total_jackpot_wins + totalJackpotWinsValue l := by
  induction l generalizing acc with
  | nil => simp [totalJackpotWinsValue]
  | cons j rest ih =>
      obtain ⟨ih1, ih2⟩ := ih (jackpotStep acc j)
      constructor
      · rw [List.foldl_cons, ih1]; simp [jackpotStep]
      · rw [List.foldl_cons, ih2]; simp [jackpotStep, totalJackpotWinsValue]; ring

theorem bonoFold_spec (l : List BonoDomain) (acc : BonoAcc) :
    (l.foldl bonoStep acc).bonos_list
      = acc.bonos_list ++ l.map (fun b => { bono_id := b.id, sum := b.value : BonoEntry }) ∧
    (l.foldl bonoStep acc).total_bonos = acc.total_bonos + totalBonosValue l := by
  induction l generalizing acc with
  | nil => simp [totalBonosValue]
  | cons b rest ih =>
      obtain ⟨ih1, ih2⟩ := ih (bonoStep acc b)
      constructor
      · rw [List.foldl_cons, ih1]; simp [bonoStep]
      · rw [List.foldl_cons, ih2]; simp [bonoStep, totalBonosValue]; ring

theorem aggregate_components (report_date : ℤ) (ss : List SessionDomain)
    (js : List JackpotPriceDomain) (bs : List BonoDomain) (now : ℤ) :
    (aggregateDailyReport report_date ss js bs now).reik = totalReik ss ∧
    (aggregateDailyReport report_date ss js bs now).jackpot = totalJackpotField ss ∧
    (aggregateDailyReport report_date ss js bs now).gastos
      = totalBonosValue bs + totalJackpotWinsValue js + totalLaborCost now ss + totalTips ss ∧
    (aggregateDailyReport report_date ss js bs now).ganancias
      = totalReik ss - (aggregateDailyReport report_date ss js bs now).gastos ∧
    (aggregateDailyReport report_date ss js bs now).sessions = ss.map SessionDomain.id ∧
    (aggregateDailyReport report_date ss js bs now).jackpot_wins
      = js.map (fun j => { jackpot_win_id := j.id, sum := j.value : JackpotWinEntry }) ∧
    (aggregateDailyReport report_date ss js bs now).bonos
      = bs.map (fun b => { bono_id := b.id, sum := b.value : BonoEntry }) := by
  have hs := sessionFold_spec now ss ⟨0, 0, 0, 0, []⟩
  have hj := jackpotFold_spec js ⟨[], 0⟩
  have hb := bonoFold_spec bs ⟨[], 0⟩
  refine ⟨?_, ?_, ?_, ?_, ?_, ?_, ?_⟩ <;>
    simp [aggregateDailyReport, hs.1, hs.2.1, hs.2.2.1, hs.2.2.2.1, hs.2.2.2.2,
          hj.1, hj.2, hb.1, hb.2]

/-! ## Truncation toward zero: the integer formula matches the real one -/

theorem pyIntTrunc_intCast_div_natCast (a : ℤ) (b : ℕ) (hb : 0 < b) :
    pyIntTrunc ((a : ℚ) / (b : ℚ)) = a.tdiv (b : ℤ) := by
  unfold pyIntTrunc
  rcases le_or_lt 0 a with ha | ha
  · have hq : (0 : ℚ) ≤ (a : ℚ) / (b : ℚ) := by positivity
    rw [if_pos hq, Rat.floor_intCast_div_natCast,
        Int.tdiv_eq_ediv ha (by exact_mod_cast hb.le)]
  · have hq : (a : ℚ) / (b : ℚ) < 0 :=
      div_neg_of_neg_of_pos (by exact_mod_cast ha) (by exact_mod_cast hb)
    rw [if_neg (not_le.mpr hq)]
    have h1 : (a : ℚ) / (b : ℚ) = -((((-a : ℤ) : ℚ)) / (b : ℚ)) := by push_cast; ring
    have h2 : a.tdiv (b : ℤ) = -((-a).tdiv (b : ℤ)) := by
      rw [Int.neg_tdiv, Int.neg_neg]
    rw [h1, Int.ceil_neg, Rat.floor_intCast_div_natCast, h2,
        Int.tdiv_eq_ediv (by omega) (by exact_mod_cast hb.le)]

/-- The source's `int(duration_hours * hourly_pay)` — the real-valued hour
count times the rate, truncated toward zero — equals the integer T-division
used in the embedding. -/
theorem dealerCostInt_eq_pyIntTrunc (deltaUs pay : ℤ) :
    dealerCostInt deltaUs pay
      = pyIntTrunc ((deltaUs : ℚ) / 1000000 / 3600 * (pay : ℚ)) := by
  have h : (deltaUs : ℚ) / 1000000 / 3600 * (pay : ℚ)
      = ((deltaUs * pay : ℤ) : ℚ) / ((3600000000 : ℕ) : ℚ) := by
    push_cast; ring
  rw [h, pyIntTrunc_intCast_div_natCast _ _ (by norm_num)]
  norm_num [dealerCostInt, usPerHour]

/-- Decidable equality for `Except` results, so concrete runs of the
embedded code can be checked by `decide`. -/
instance {ε α : Type} [DecidableEq ε] [DecidableEq α] : DecidableEq (Except ε α) := fun x y =>
  match x, y with
  | .ok a, .ok b =>
      if h : a = b then .isTrue (by rw [h]) else .isFalse (fun hc => h (by injection hc))
  | .error e, .error f =>
      if h : e = f then .isTrue (by rw [h]) else .isFalse (fun hc => h (by injection hc))
  | .ok _, .error _ => .isFalse (fun hc => Except.noConfusion hc)
  | .error _, .ok _ => .isFalse (fun hc => Except.noConfusion hc)

/-! ## Concrete fixtures used by the claim theorems -/

/-- P4 fixture: closed session, `reik=1000`, `hourly_pay=100`, exactly two
hours long, `tips=50`. -/
def sessionP4 : SessionDomain :=
  { id := "s1", dealer_id := "d1", start_time := some 0, end_time := some 7200000000,
    jackpot := 0, reik := 1000, tips := 50, hourly_pay := 100 }

/-- P5 fixture: session lasting exactly 1.999 hours (7196.4 s =
7196400000 µs) at `hourly_pay=100`. -/
def session1999 : SessionDomain :=
  { id := "s2", dealer_id := "d1", start_time := some 0, end_time := some 7196400000,
    jackpot := 0, reik := 0, tips := 0, hourly_pay := 100 }

/-- Scenario A/B fixture: one closed session `reik=1000`, no pay, no tips. -/
def sessionA : SessionDomain :=
  { id := "sA", dealer_id := "d1", start_time := some 32400000000,
    end_time := some 36000000000, jackpot := 0, reik := 1000, tips := 0, hourly_pay := 0 }

/-- Scenario B fixture: one jackpot win of value 5000. -/
def jackpotWinB : JackpotPriceDomain :=
  { id := "j1", user_id := "u1", session_id := "sA", value := 5000 }

/-- A report with positive `ganancias` but larger `gastos`. -/
def reportC5 : DailyReportDomain :=
  { id := some "1", date := 19000, reik := 300, ganancias := 100, gastos := 200 }

/-! ## Claim theorems -/

/-- **C1** — claimed: every generation run over valid records completes and
the persisted report carries one `jackpot_wins` entry per fetched
JackpotWin and one `bonos` entry per fetched Bono.  In fact the call site
passes `jackpot_wins=`/`bonos=` keyword arguments that the service-layer
`create_daily_report` does not accept, so EVERY generation run raises
`TypeError` and persists nothing — even though the aggregated draft does
contain exactly one entry per fetched record. -/
theorem claim_C1_generation_raises_type_error :
    kwargsAccepted = false ∧
    (∀ (st : ReportStore) (hostToday nowUtc report_date : ℤ)
        (ss : List SessionDomain) (js : List JackpotPriceDomain) (bs : List BonoDomain),
      generate_daily_report_from_sessions st hostToday nowUtc report_date ss js bs
        = (.error (.typeError
            "create_daily_report got an unexpected keyword argument jackpot_wins"), st)) ∧
    (∀ (report_date : ℤ) (ss : List SessionDomain) (js : List JackpotPriceDomain)
        (bs : List BonoDomain) (now : ℤ),
      (aggregateDailyReport report_date ss js bs now).jackpot_wins
        = js.map (fun j => { jackpot_win_id := j.id, sum := j.value }) ∧
      (aggregateDailyReport report_date ss js bs now).bonos
        = bs.map (fun b => { bono_id := b.id, sum := b.value })) := by
  refine ⟨by decide, ?_, ?_⟩
  · intro st hostToday nowUtc report_date ss js bs
    simp [generate_daily_report_from_sessions, (by decide : kwargsAccepted = false)]
  · intro report_date ss js bs now
    have h := aggregate_components report_date ss js bs now
    exact ⟨h.2.2.2.2.2.1, h.2.2.2.2.2.2⟩

/-- **C2** — claimed: a report with negative `ganancias` (a loss day, e.g.
Scenario B's `reik=1000`, `gastos=5000`, `ganancias=-4000`) is accepted.
In fact the aggregation itself produces `ganancias = -4000` on Scenario B,
and the domain layer's pydantic validator then rejects any negative
`ganancias` with `ValueError`, so a loss-day report can never be
constructed or persisted. -/
theorem claim_C2_negative_ganancias_rejected :
    (aggregateDailyReport 19000 [sessionA] [jackpotWinB] [] 0).gastos = 5000 ∧
    (aggregateDailyReport 19000 [sessionA] [jackpotWinB] [] 0).ganancias = -4000 ∧
    DailyReportDomainService.create_daily_report 19000 0 19000 1000 0 (-4000) 5000
        (some ["sA"]) none none none
      = .error (.valueError "Los valores monetarios no pueden ser negativos") := by
  decide

/-- **C4** — confirmed: `gastos` is labor + tips + jackpot-wins + bonos and
`ganancias = reik − gastos`, and the P4 instance (2h at 100/h plus 50 tips
against 1000 reik) yields `gastos = 250`, `ganancias = 750`. -/
theorem claim_C4_expense_formula :
    (∀ (report_date : ℤ) (ss : List SessionDomain) (js : List JackpotPriceDomain)
        (bs : List BonoDomain) (now : ℤ),
      (aggregateDailyReport report_date ss js bs now).gastos
        = totalLaborCost now ss + totalTips ss + totalJackpotWinsValue js
          + totalBonosValue bs ∧
      (aggregateDailyReport report_date ss js bs now).ganancias
        = totalReik ss - (aggregateDailyReport report_date ss js bs now).gastos) ∧
    (aggregateDailyReport 19000 [sessionP4] [] [] 0).gastos = 250 ∧
    (aggregateDailyReport 19000 [sessionP4] [] [] 0).ganancias = 750 := by
  refine ⟨?_, by decide, by decide⟩
  intro report_date ss js bs now
  have h := aggregate_components report_date ss js bs now
  exact ⟨by rw [h.2.2.1]; ring, h.2.2.2.1⟩

/-- **C5** counterexample — the claim says `is_profitable ⇔ ganancias > 0`,
but the code computes `get_net_profit() > 0`, i.e. `ganancias − gastos > 0`:
a report with `ganancias = 100 > 0` and `gastos = 200` is not profitable. -/
theorem claim_C5_counterexample :
    0 < reportC5.ganancias ∧ reportC5.is_profitable = false := by
  decide

/-- **C5** amended: `is_profitable` is true iff `ganancias − gastos > 0`
(the net-profit formula of the code), not iff `ganancias > 0`. -/
theorem claim_C5_profitable_iff_net_positive :
    ∀ r : DailyReportDomain, r.is_profitable = true ↔ r.ganancias - r.gastos > 0 := by
  intro r
  simp [DailyReportDomain.is_profitable, DailyReportDomain.get_net_profit]

/-- **C6** — confirmed: for a session with a start time and nonzero hourly
pay, the labor contribution accumulated by the session loop equals the
exact real duration in hours (to `end_time`, or to `now` when open)
multiplied by `hourly_pay` and truncated toward zero (`pyIntTrunc`); the
1.999-hour session at rate 100 contributes 199, not 200. -/
theorem claim_C6_labor_cost_truncation :
    (∀ (now : ℤ) (acc : SessionAcc) (s : SessionDomain) (st : ℤ),
      s.start_time = some st → s.hourly_pay ≠ 0 →
      (sessionStep now acc s).total_dealer_cost
        = acc.total_dealer_cost
          + pyIntTrunc ((((s.end_time.getD now - st : ℤ) : ℚ) / 1000000 / 3600)
              * (s.hourly_pay : ℚ))) ∧
    (aggregateDailyReport 19000 [session1999] [] [] 0).gastos = 199 ∧
    dealerCostInt 7196400000 100 ≠ 200 := by
  refine ⟨?_, by decide, by decide⟩
  intro now acc s st hst hpay
  have h := (sessionStep_components now acc s).2.2.1
  rw [h, sessionLaborCost, hst]
  simp only [if_neg hpay]
  rw [dealerCostInt_eq_pyIntTrunc]

/-- Witness for C6: the hypotheses hold for the 1.999-hour fixture and the
theorem instantiates to its labor contribution. -/
theorem claim_C6_labor_cost_truncation_witness :
    session1999.start_time = some 0 ∧ session1999.hourly_pay ≠ 0 ∧
    (sessionStep 0 ⟨0, 0, 0, 0, []⟩ session1999).total_dealer_cost
      = (SessionAcc.mk 0 0 0 0 []).total_dealer_cost
        + pyIntTrunc ((((session1999.end_time.getD 0 - 0 : ℤ) : ℚ) / 1000000 / 3600)
            * (session1999.hourly_pay : ℚ)) :=
  ⟨rfl, by decide,
    claim_C6_labor_cost_truncation.1 0 ⟨0, 0, 0, 0, []⟩ session1999 0 rfl (by decide)⟩

/-- An existing persisted report for "today" (day 18999) in the C3 world. -/
def reportToday : DailyReportDomain :=
  { id := some "9", date := 18999, reik := 7, ganancias := 7, gastos := 0 }

/-- C3 world: current instant 01:00 UTC on day 19000 (= 20:00 on day 18999
in Bogotá), host timezone UTC, one persisted report for Bogotá-today. -/
def worldC3 : World :=
  { store := ⟨[reportToday], 12⟩,
    sessionsByDate := fun _ => [],
    jackpotsByDate := fun _ => [],
    bonosByDate := fun _ => [],
    nowUtc := 19000 * 86400000000 + 3600000000,
    hostOffset := 0 }

/-- **C3** — claimed: requesting today's report hard-deletes any existing
one and persists a freshly generated one; other dates are served from the
stored report or generated once.  In fact the today-branch does delete the
existing report but the generation call then raises `TypeError` (see C1),
so nothing is persisted and the date is left with NO report at all. -/
theorem claim_C3_today_regeneration_deletes_then_fails :
    today_bogota worldC3.nowUtc = 18999 ∧
    DailyReportService.get_report_by_date worldC3.store 18999 = some reportToday ∧
    get_daily_report_by_date worldC3 18999
      = (.error (.typeError
          "create_daily_report got an unexpected keyword argument jackpot_wins"),
         ⟨[], 12⟩) ∧
    DailyReportService.get_report_by_date (get_daily_report_by_date worldC3 18999).2 18999
      = none := by
  decide

/-- A report dated day 19729 with all-zero money, used to probe the
future-date validation. -/
def reportC7 : DailyReportDomain := { date := 19729 }

/-- The instant 01:00 UTC on day 19729 (still day 19728 in UTC−5). -/
def t7val : ℤ := 19729 * 86400000000 + 3600000000

/-- **C7** counterexample — the claim says every is-today comparison and
day-boundary computation uses the fixed UTC−5 offset.  In fact: (a) the
future-date validation uses the host machine's local `date.today()`, so at
the same UTC instant it accepts a report date under a UTC host and rejects
it under a UTC−5 host — it is not a function of the instant alone; (b) the
today-comparison's `ZoneInfo("America/Bogota")` is a DST-aware tz database
entry whose offset is −4:00 during the 1992 DST experiment, not a fixed
offset; (c) the generation fetch range for date 0 contains the instant
01:00 UTC whose fixed-UTC−5 calendar date is day −1, i.e. day boundaries
are naive/UTC, not −5-shifted. -/
theorem claim_C7_counterexample :
    DailyReportDomain.validate_business_rules (pyDateToday 0 t7val) reportC7 = [] ∧
    DailyReportDomain.validate_business_rules (pyDateToday (-18000) t7val) reportC7
      = ["La fecha no puede ser futura"] ∧
    americaBogotaOffsetAt 704869200000000 = -14400 ∧
    fetchRangeContains 0 3600000000 = true ∧
    localDateOfInstant (-18000) 3600000000 = -1 := by
  decide

/-- **C7** amended: the is-today comparison uses the IANA America/Bogota
zone, which coincides with the fixed UTC−5 offset for every instant from
1993-02-07 on; the future-date validation instead uses the host machine's
local date (`date.today()`), so its outcome is the host-local-date
function of the instant; and the generation day-range boundaries select
exactly the naive/UTC day of the calendar date, with no −5 shift. -/
theorem claim_C7_amended_timezone :
    (∀ t : ℤ, 729057600000000 ≤ t → americaBogotaOffsetAt t = -18000) ∧
    (∀ t : ℤ, 729057600000000 ≤ t → today_bogota t = localDateOfInstant (-18000) t) ∧
    (∀ (hostOffset t : ℤ) (r : DailyReportDomain),
      "La fecha no puede ser futura"
          ∈ r.validate_business_rules (pyDateToday hostOffset t)
        ↔ pyDateToday hostOffset t < r.date) ∧
    (∀ d t : ℤ, fetchRangeContains d t = true ↔ localDateOfInstant 0 t = d) := by
  have h1 : ∀ t : ℤ, 729057600000000 ≤ t → americaBogotaOffsetAt t = -18000 := by
    intro t ht
    unfold americaBogotaOffsetAt
    rw [if_neg (by omega), if_neg (by omega)]
  refine ⟨h1, ?_, ?_, ?_⟩
  · intro t ht
    unfold today_bogota
    rw [h1 t ht]
  · intro hostOffset t r
    unfold DailyReportDomain.validate_business_rules
    split_ifs <;> simp_all
  · intro d t
    unfold fetchRangeContains start_of_day end_of_day localDateOfInstant usPerDay
    simp only [Bool.and_eq_true, decide_eq_true_eq]
    omega

/-- Witness for C7-amended: instantiated at the modern instant `t7val` and
at concrete validation/fetch inputs. -/
theorem claim_C7_amended_timezone_witness :
    ((729057600000000 : ℤ) ≤ t7val ∧ americaBogotaOffsetAt t7val = -18000) ∧
    (today_bogota t7val = localDateOfInstant (-18000) t7val) ∧
    ("La fecha no puede ser futura"
        ∈ reportC7.validate_business_rules (pyDateToday (-18000) t7val)
      ↔ pyDateToday (-18000) t7val < reportC7.date) ∧
    (fetchRangeContains 0 3600000000 = true ↔ localDateOfInstant 0 3600000000 = 0) :=
  ⟨⟨by decide, claim_C7_amended_timezone.1 t7val (by decide)⟩,
   claim_C7_amended_timezone.2.1 t7val (by decide),
   claim_C7_amended_timezone.2.2.1 (-18000) t7val reportC7,
   claim_C7_amended_timezone.2.2.2 0 3600000000⟩

/-- A persisted report used as the pre-existing conflict for C8. -/
def reportC8 : DailyReportDomain := { id := some "5", date := 19000, reik := 10 }

/-- **C8** — confirmed: the plain create operation raises `ValueError` when
a report for the date already exists, and the collection is unchanged —
no silent overwrite. -/
theorem claim_C8_create_conflict :
    ∀ (st : ReportStore) (hostToday nowUtc report_date reik jackpot ganancias gastos : ℤ)
      (sessions : List String) (comment : Option String) (r0 : DailyReportDomain),
      DailyReportService.get_report_by_date st report_date = some r0 →
      DailyReportService.create_daily_report st hostToday nowUtc report_date
          reik jackpot ganancias gastos sessions comment
        = (.error (.valueError ("Ya existe un reporte para la fecha " ++ toString report_date)),
           st) := by
  intro st hostToday nowUtc report_date reik jackpot ganancias gastos sessions comment r0 h
  unfold DailyReportService.create_daily_report
  rw [h]

/-- Witness for C8: a store holding a report dated 19000 makes `create` for
19000 fail and leaves the store untouched. -/
theorem claim_C8_create_conflict_witness :
    DailyReportService.get_report_by_date ⟨[reportC8], 6⟩ 19000 = some reportC8 ∧
    DailyReportService.create_daily_report ⟨[reportC8], 6⟩ 19000 0 19000 1 2 3 4 [] none
      = (.error (.valueError ("Ya existe un reporte para la fecha " ++ toString (19000 : ℤ))),
         ⟨[reportC8], 6⟩) :=
  ⟨by decide,
   claim_C8_create_conflict ⟨[reportC8], 6⟩ 19000 0 19000 1 2 3 4 [] none reportC8 (by decide)⟩

/-- The fields of a stored report that the update path must never touch:
`id`, `date`, `created_at`, `jackpot_wins`, `bonos`. -/
def reportFrameFields (r : DailyReportDomain) :
    Option String × ℤ × Option ℤ × List JackpotWinEntry × List BonoEntry :=
  (r.id, r.date, r.created_at, r.jackpot_wins, r.bonos)

theorem updateFirstById_map_frame (l : List DailyReportDomain) (rid : Option String)
    (merged r0 : DailyReportDomain)
    (hfind : l.find? (fun r => r.id == rid) = some r0)
    (hfr : reportFrameFields merged = reportFrameFields r0) :
    (updateFirstById l rid merged).map reportFrameFields = l.map reportFrameFields := by
  induction l with
  | nil => simp at hfind
  | cons r rest ih =>
      cases h : r.id == rid with
      | true =>
          rw [List.find?_cons, h] at hfind
          simp at hfind
          subst hfind
          simp [updateFirstById, h, hfr]
      | false =>
          rw [List.find?_cons, h] at hfind
          simp [updateFirstById, h, ih hfind]

/-- **C9** — confirmed: the update path can only alter
`reik`/`jackpot`/`ganancias`/`gastos`/`sessions`/`comment` (plus the
bookkeeping `updated_at`); every stored report's `id`, `date`,
`created_at`, `jackpot_wins` and `bonos` survive any update request
unchanged — including requests that supply `jackpot_wins`/`bonos` values,
which the endpoint never reads. -/
theorem claim_C9_update_preserves_derived_fields :
    ∀ (st : ReportStore) (hostToday nowUtc : ℤ) (report_id : String)
      (report_data : DailyReportUpdateSchema),
      ((update_daily_report st hostToday nowUtc report_id report_data).2).reports.map
          reportFrameFields
        = st.reports.map reportFrameFields := by
  intro st hostToday nowUtc report_id report_data
  unfold update_daily_report DailyReportService.update_report
  cases hfind : DailyReportService.get_report_by_id st report_id with
  | none => simp
  | some existing =>
      cases herr :
          (mergeReport existing
            { reik := report_data.reik, jackpot := report_data.jackpot,
              ganancias := report_data.ganancias, gastos := report_data.gastos,
              sessions := report_data.sessions, comment := report_data.comment }
            nowUtc).validate_business_rules hostToday |>.isEmpty with
      | false => simp [herr]
      | true =>
          simp only [herr, if_true]
          exact updateFirstById_map_frame st.reports (some report_id)
            (mergeReport existing
              { reik := report_data.reik, jackpot := report_data.jackpot,
                ganancias := report_data.ganancias, gastos := report_data.gastos,
                sessions := report_data.sessions, comment := report_data.comment }
              nowUtc) existing hfind rfl

/-- C10 fixture: three stored reports, dates descending; first and third
are profitable, the middle one is not. -/
def reportHi : DailyReportDomain := { id := some "1", date := 30, ganancias := 100, gastos := 0 }

/-- C10 fixture: the non-profitable middle report. -/
def reportMid : DailyReportDomain := { id := some "2", date := 20, ganancias := 0, gastos := 0 }

/-- C10 fixture: a profitable report beyond the first `skip+limit`. -/
def reportLo : DailyReportDomain := { id := some "3", date := 10, ganancias := 50, gastos := 0 }

/-- C10 fixture store. -/
def demoStore : ReportStore := ⟨[reportHi, reportMid, reportLo], 4⟩

/-- **C10** — confirmed: every report returned by the profitable listing
satisfies `is_profitable` and lies in the skip/limit window of the
date-sorted UNFILTERED collection; the page never exceeds `limit`; and on
the fixture store with `skip=0, limit=2` the page is `[reportHi]` — fewer
than `limit` — while the profitable `reportLo` beyond the first
`skip+limit` stored reports is omitted. -/
theorem claim_C10_profitable_pagination :
    (∀ (st : ReportStore) (skip limit : ℕ) (r : DailyReportDomain),
      r ∈ DailyReportService.get_profitable_reports st skip limit →
      r.is_profitable = true ∧ r ∈ ((sortByDateDesc st.reports).drop skip).take limit) ∧
    (∀ (st : ReportStore) (skip limit : ℕ),
      (DailyReportService.get_profitable_reports st skip limit).length ≤ limit) ∧
    (DailyReportService.get_profitable_reports demoStore 0 2 = [reportHi] ∧
     reportLo.is_profitable = true ∧
     reportLo ∈ demoStore.reports ∧
     reportLo ∉ DailyReportService.get_profitable_reports demoStore 0 2) := by
  refine ⟨?_, ?_, by decide, by decide, by decide, by decide⟩
  · intro st skip limit r h
    unfold DailyReportService.get_profitable_reports at h
    have hm := List.mem_filter.mp h
    exact ⟨hm.2, hm.1⟩
  · intro st skip limit
    unfold DailyReportService.get_profitable_reports
    calc (((((sortByDateDesc st.reports).drop skip).take limit)).filter
            DailyReportDomain.is_profitable).length
        ≤ (((sortByDateDesc st.reports).drop skip).take limit).length :=
          List.length_filter_le _ _
      _ ≤ limit := by rw [List.length_take]; exact min_le_left _ _

/-- Witness for C10: `reportHi` is on the returned page, hence profitable
and inside the skip/limit window of the sorted collection. -/
theorem claim_C10_profitable_pagination_witness :
    reportHi ∈ DailyReportService.get_profitable_reports demoStore 0 2 ∧
    (reportHi.is_profitable = true ∧
     reportHi ∈ ((sortByDateDesc demoStore.reports).drop 0).take 2) :=
  ⟨by decide, claim_C10_profitable_pagination.1 demoStore 0 2 reportHi (by decide)⟩

end Dealership
